import Mathlib

/-!
Shallow embedding of `core/container/kubernetescontroller/kubernetescontroller.go`
(and its collaborator `core/container/util`'s client constructor, modelled only by
its possible failure) from the estaleiro/fabric repository.

Modelling conventions:
* Go's `(T, error)` return values become `T × Option GoError`; a `nil` error is `none`.
* `ccintf.CCID` is modelled by the three strings the controller reads from it:
  `NetworkID`, `PeerID`, and the result of `GetName()` (the base name).
* The remote Kubernetes control plane is modelled as the set of existing
  deployments, keyed by (namespace, name); `Create` fails on an existing key
  ("already exists") and `Delete` fails on a missing key ("not found"), which is
  exactly the observable behaviour the claims are about.  Every remote call the
  controller issues is also recorded in an `APICall` trace so that statements
  about which calls are made (and with which namespace, name and propagation
  policy) are expressible.
* `viper` configuration reads are modelled by a `Config` record:
  `IsSet "peer.kubernetes.namespace"` / `GetString "peer.kubernetes.namespace"`.
* The client constructor `vm.getClientFnc` is modelled by an `Option GoError`
  argument: `none` means a client was obtained, `some e` means construction
  failed with `e`.
* `regexp.MustCompile("[^a-zA-Z0-9-_.]").ReplaceAllString(name, "-")` rewrites
  each rune outside the class to `-`; as a map over unicode scalars this is a
  character-wise map, embedded as `vmRegExpReplaceAll`.
* `strings.Replace(id, ":", "_", -1)` with a single-character pattern is the
  character-wise map embedded as `replaceColonUnderscore`.
-/

namespace KubernetesController

/-- Go `error` values, carrying their message. -/
structure GoError where
  msg : String
deriving DecidableEq, Repr

/-- The fields of `ccintf.CCID` that the controller reads: `NetworkID`, `PeerID`
and the result of `GetName()`. -/
structure CCID where
  networkID : String
  peerID : String
  name : String
deriving DecidableEq, Repr

/-- Embeds `ccid.GetName()`. -/
def CCID.GetName (ccid : CCID) : String := ccid.name

/-- A character accepted by the class `[a-zA-Z0-9-_.]` of `vmRegExp`
(`regexp.MustCompile("[^a-zA-Z0-9-_.]")`). -/
def isVMChar (ch : Char) : Bool :=
  (decide ('a' ≤ ch) && decide (ch ≤ 'z')) ||
  (decide ('A' ≤ ch) && decide (ch ≤ 'Z')) ||
  (decide ('0' ≤ ch) && decide (ch ≤ '9')) ||
  ch == '-' || ch == '_' || ch == '.'

/-- One step of `vmRegExp.ReplaceAllString(name, "-")`: a character outside the
class is replaced with `-`. -/
def sanitizeChar (ch : Char) : Char := if isVMChar ch then ch else '-'

/-- Embeds `vmRegExp.ReplaceAllString(name, "-")`: every character not in
`[a-zA-Z0-9-_.]` is replaced one-for-one with `-`. -/
def vmRegExpReplaceAll (s : String) : String := String.mk (s.data.map sanitizeChar)

/-- Embeds `strings.Replace(id, ":", "_", -1)` from `Stop`: every `:` becomes `_`. -/
def replaceColonUnderscore (s : String) : String :=
  String.mk (s.data.map (fun ch => if ch == ':' then '_' else ch))

/-- The identifier-joining step of `GetVMName` (its first `if/else if` chain):
prefix the base name with the non-empty identifiers, separated by `-`. -/
def joinedName (ccid : CCID) : String :=
  if ccid.networkID ≠ "" ∧ ccid.peerID ≠ "" then
    ccid.networkID ++ "-" ++ ccid.peerID ++ "-" ++ ccid.GetName
  else if ccid.networkID ≠ "" then
    ccid.networkID ++ "-" ++ ccid.GetName
  else if ccid.peerID ≠ "" then
    ccid.peerID ++ "-" ++ ccid.GetName
  else
    ccid.GetName

/-- Embeds `(vm *KubernetesVM) GetVMName(ccid, format)`: join the identifiers,
apply the optional format transform (returning its partial output and error
unchanged when it fails), and otherwise sanitize with `vmRegExp`. -/
def GetVMName (ccid : CCID) (format : Option (String → String × Option GoError)) :
    String × Option GoError :=
  match format with
  | none => (vmRegExpReplaceAll (joinedName ccid), none)
  | some f =>
    match f (joinedName ccid) with
    | (formattedName, some e) => (formattedName, some e)
    | (formattedName, none) => (vmRegExpReplaceAll formattedName, none)

/-- `apiv1.NamespaceDefault` from `k8s.io/api/core/v1`. -/
def NamespaceDefault : String := "default"

/-- `metav1.DeletionPropagation`; `stopInternal` uses `DeletePropagationForeground`. -/
inductive DeletionPropagation
  | Orphan
  | Background
  | Foreground
deriving DecidableEq, Repr

/-- A remote call issued by the controller against the orchestrator. -/
inductive APICall
  | deleteCall (ns : String) (name : String) (policy : DeletionPropagation)
  | createCall (ns : String) (name : String)
deriving DecidableEq, Repr

/-- The remote control plane's state: the set of existing deployments, keyed by
(namespace, name). -/
abbrev Cluster := List (String × String)

/-- The orchestrator's delete error for a missing deployment. -/
def notFoundErr (name : String) : GoError :=
  ⟨"deployments.apps " ++ name ++ " not found"⟩

/-- The orchestrator's create error for a name that already exists. -/
def alreadyExistsErr (name : String) : GoError :=
  ⟨"deployments.apps " ++ name ++ " already exists"⟩

/-- Remote `deploymentsClient.Delete(id, options)`: removes the deployment when
present, otherwise returns the not-found error.  The propagation policy is part
of the request (observable in the trace) and does not change success/failure. -/
def deleteDeployment (c : Cluster) (ns : String) (name : String)
    (policy : DeletionPropagation) : Cluster × Option GoError :=
  if (ns, name) ∈ c then
    (c.filter (fun p => p != (ns, name)), none)
  else
    (c, some (notFoundErr name))

/-- Remote `deploymentsClient.Create(deployment)`: inserts the deployment when
the name is free in the namespace, otherwise returns the already-exists error. -/
def createDeployment (c : Cluster) (ns : String) (name : String) :
    Cluster × Option GoError :=
  if (ns, name) ∈ c then
    (c, some (alreadyExistsErr name))
  else
    ((ns, name) :: c, none)

/-- The `viper` configuration surface `Start` reads. -/
structure Config where
  namespaceIsSet : Bool
  namespaceValue : String
  runtimeImage : String
deriving DecidableEq, Repr

/-- Embeds `(vm *KubernetesVM) stopInternal(ctxt, client, id, timeout, dontkill,
dontremove)`: one delete of `id` in `apiv1.NamespaceDefault` with the
foreground propagation policy; its error is returned (after logging).  The
`timeout`, `dontkill` and `dontremove` parameters are unused by the body, as in
the source. -/
def stopInternal (c : Cluster) (id : String) (timeout : Nat)
    (dontkill : Bool) (dontremove : Bool) : Cluster × APICall × Option GoError :=
  let deletePolicy := DeletionPropagation.Foreground
  let r := deleteDeployment c NamespaceDefault id deletePolicy
  (r.1, APICall.deleteCall NamespaceDefault id deletePolicy, r.2)

/-- Embeds `(vm *KubernetesVM) Start(ctxt, ccid, args, env, builder,
prelaunchFunc)`.  `clientErr` models the outcome of `vm.getClientFnc()`.
Returns the new cluster state, the trace of remote calls issued, and the
returned error. -/
def Start (cfg : Config) (clientErr : Option GoError) (c : Cluster) (ccid : CCID)
    (args : List String) (env : List String) :
    Cluster × List APICall × Option GoError :=
  match clientErr with
  | some e => (c, [], some e)
  | none =>
    match GetVMName ccid none with
    | (_, some e) => (c, [], some e)
    | (deploymentID, none) =>
      let cleanup := stopInternal c deploymentID 0 false false
      let ns := if cfg.namespaceIsSet then cfg.namespaceValue else NamespaceDefault
      let created := createDeployment cleanup.1 ns deploymentID
      (created.1, [cleanup.2.1, APICall.createCall ns deploymentID], created.2)

/-- Embeds `(vm *KubernetesVM) Stop(ctxt, ccid, timeout, dontkill, dontremove)`:
resolve the name with a nil transform, obtain the client, replace `:` with `_`,
and return `stopInternal`'s result. -/
def Stop (clientErr : Option GoError) (c : Cluster) (ccid : CCID)
    (timeout : Nat) (dontkill : Bool) (dontremove : Bool) :
    Cluster × List APICall × Option GoError :=
  match GetVMName ccid none with
  | (_, some e) => (c, [], some e)
  | (id0, none) =>
    match clientErr with
    | some e => (c, [], some e)
    | none =>
      let id := replaceColonUnderscore id0
      let r := stopInternal c id timeout dontkill dontremove
      (r.1, [r.2.1], r.2.2)

/-- Embeds `(vm *KubernetesVM) Deploy(ctxt, ccid, args, env, reader)`: the body
is `return nil`; no remote call, no state change. -/
def Deploy (c : Cluster) (ccid : CCID) (args : List String) (env : List String) :
    Cluster × List APICall × Option GoError :=
  (c, [], none)

/-- Embeds `(vm *KubernetesVM) Destroy(ctxt, ccid, force, noprune)`: the body is
`return nil`; no remote call, no state change. -/
def Destroy (c : Cluster) (ccid : CCID) (force : Bool) (noprune : Bool) :
    Cluster × List APICall × Option GoError :=
  (c, [], none)

/-- The intermediate name `GetVMName` feeds to the sanitization step: the joined
name, or the transform's output when a transform is supplied. -/
def appliedName (ccid : CCID) (format : Option (String → String × Option GoError)) :
    String :=
  match format with
  | none => joinedName ccid
  | some f => (f (joinedName ccid)).1

/-- With a nil transform, `GetVMName` is the sanitized joined name with no error. -/
theorem GetVMName_none (ccid : CCID) :
    GetVMName ccid none = (vmRegExpReplaceAll (joinedName ccid), none) := rfl

/-- Sanitized characters always lie in the class of `vmRegExp`. -/
theorem isVMChar_sanitizeChar (ch : Char) : isVMChar (sanitizeChar ch) = true := by
  unfold sanitizeChar
  by_cases h : isVMChar ch
  · simp [h]
  · simp [h]
    decide

/-- A character already in the class is left unchanged by sanitization. -/
theorem sanitizeChar_eq_self (ch : Char) (h : isVMChar ch = true) :
    sanitizeChar ch = ch := by
  simp [sanitizeChar, h]

/-- Sanitizing a character twice equals sanitizing it once. -/
theorem sanitizeChar_idem (ch : Char) :
    sanitizeChar (sanitizeChar ch) = sanitizeChar ch :=
  sanitizeChar_eq_self _ (isVMChar_sanitizeChar ch)

/-- The underlying character list of the sanitizer's output. -/
theorem vmRegExpReplaceAll_data (s : String) :
    (vmRegExpReplaceAll s).data = s.data.map sanitizeChar := rfl

/-- Every character of the sanitizer's output lies in the class of `vmRegExp`. -/
theorem isVMChar_of_mem_vmRegExpReplaceAll (s : String) :
    ∀ ch ∈ (vmRegExpReplaceAll s).data, isVMChar ch = true := by
  intro ch hch
  rw [vmRegExpReplaceAll_data] at hch
  rcases List.mem_map.1 hch with ⟨a, _, rfl⟩
  exact isVMChar_sanitizeChar a

/-- A string whose characters are all in the class is a fixed point of the
sanitizer. -/
theorem vmRegExpReplaceAll_eq_self (s : String)
    (h : ∀ ch ∈ s.data, isVMChar ch = true) : vmRegExpReplaceAll s = s := by
  apply String.ext
  rw [vmRegExpReplaceAll_data]
  exact (List.map_congr_left fun a ha => sanitizeChar_eq_self a (h a ha)).trans
    (List.map_id s.data)

/-- The sanitizer never emits a colon. -/
theorem no_colon_in_vmRegExpReplaceAll (s : String) :
    ∀ ch ∈ (vmRegExpReplaceAll s).data, ch ≠ ':' := by
  intro ch hch heq
  have hclass := isVMChar_of_mem_vmRegExpReplaceAll s ch hch
  rw [heq] at hclass
  exact absurd hclass (by decide)

/-- A string with no colon is a fixed point of `replaceColonUnderscore`. -/
theorem replaceColonUnderscore_eq_self (s : String)
    (h : ∀ ch ∈ s.data, ch ≠ ':') : replaceColonUnderscore s = s := by
  apply String.ext
  show s.data.map _ = s.data
  refine (List.map_congr_left fun a ha => ?_).trans (List.map_id s.data)
  simp [h a ha]

/-- A string is empty exactly when its character list is. -/
theorem string_eq_empty_iff (s : String) : s = "" ↔ s.data = [] := by
  constructor
  · intro h
    rw [h]
  · intro h
    apply String.ext
    rw [h]

/-- The sanitizer maps non-empty strings to non-empty strings. -/
theorem vmRegExpReplaceAll_ne_empty (s : String) (h : s ≠ "") :
    vmRegExpReplaceAll s ≠ "" := by
  intro he
  apply h
  rw [string_eq_empty_iff] at he ⊢
  rw [vmRegExpReplaceAll_data] at he
  exact List.map_eq_nil_iff.1 he

/-- Join case: both identifiers non-empty. -/
theorem joinedName_both (ccid : CCID) (h1 : ccid.networkID ≠ "") (h2 : ccid.peerID ≠ "") :
    joinedName ccid = ccid.networkID ++ "-" ++ ccid.peerID ++ "-" ++ ccid.name := by
  simp [joinedName, CCID.GetName, h1, h2]

/-- Join case: only the network id is non-empty. -/
theorem joinedName_net_only (ccid : CCID) (h1 : ccid.networkID ≠ "") (h2 : ccid.peerID = "") :
    joinedName ccid = ccid.networkID ++ "-" ++ ccid.name := by
  simp [joinedName, CCID.GetName, h1, h2]

/-- Join case: only the peer id is non-empty. -/
theorem joinedName_peer_only (ccid : CCID) (h1 : ccid.networkID = "") (h2 : ccid.peerID ≠ "") :
    joinedName ccid = ccid.peerID ++ "-" ++ ccid.name := by
  simp [joinedName, CCID.GetName, h1, h2]

/-- Join case: both identifiers empty. -/
theorem joinedName_base_only (ccid : CCID) (h1 : ccid.networkID = "") (h2 : ccid.peerID = "") :
    joinedName ccid = ccid.name := by
  simp [joinedName, CCID.GetName, h1, h2]

/-- C4: name resolution joins the identity parts with single dash separators
before sanitization: with both networkID and peerID non-empty the intermediate
name is networkID-peerID-baseName; with exactly one non-empty, only it is
prefixed; with both empty the base name is used unchanged; and the identity
(net1, peer1, mycc) resolves to "net1-peer1-mycc". -/
theorem c4_join_rules (ccid : CCID) :
    (ccid.networkID ≠ "" ∧ ccid.peerID ≠ "" →
      joinedName ccid = ccid.networkID ++ "-" ++ ccid.peerID ++ "-" ++ ccid.name) ∧
    (ccid.networkID ≠ "" ∧ ccid.peerID = "" →
      joinedName ccid = ccid.networkID ++ "-" ++ ccid.name) ∧
    (ccid.networkID = "" ∧ ccid.peerID ≠ "" →
      joinedName ccid = ccid.peerID ++ "-" ++ ccid.name) ∧
    (ccid.networkID = "" ∧ ccid.peerID = "" → joinedName ccid = ccid.name) ∧
    GetVMName ⟨"net1", "peer1", "mycc"⟩ none = ("net1-peer1-mycc", none) := by
  exact ⟨fun h => joinedName_both ccid h.1 h.2,
    fun h => joinedName_net_only ccid h.1 h.2,
    fun h => joinedName_peer_only ccid h.1 h.2,
    fun h => joinedName_base_only ccid h.1 h.2, by decide⟩

/-- Witness for C4 at the identity (net1, peer1, mycc). -/
theorem c4_join_rules_witness :
    joinedName ⟨"net1", "peer1", "mycc"⟩ = "net1" ++ "-" ++ "peer1" ++ "-" ++ "mycc" :=
  (c4_join_rules ⟨"net1", "peer1", "mycc"⟩).1 (by decide)

/-- C5: when the supplied transform fails, GetVMName returns the transform's
error together with the transform's partial output exactly as produced, with
the sanitization step skipped. -/
theorem c5_transform_error_short_circuits (ccid : CCID)
    (f : String → String × Option GoError) (s : String) (e : GoError)
    (h : f (joinedName ccid) = (s, some e)) :
    GetVMName ccid (some f) = (s, some e) := by
  simp [GetVMName, h]

/-- A concrete failing transform: appends an out-of-alphabet character and fails. -/
def failingBang (s : String) : String × Option GoError :=
  (s ++ "!", some ⟨"fmt failed"⟩)

/-- Witness for C5: the failing transform's unsanitized output "mycc!" is
returned with its error. -/
theorem c5_transform_error_short_circuits_witness :
    GetVMName ⟨"", "", "mycc"⟩ (some failingBang) = ("mycc!", some ⟨"fmt failed"⟩) :=
  c5_transform_error_short_circuits ⟨"", "", "mycc"⟩ failingBang "mycc!"
    ⟨"fmt failed"⟩ (by decide)

/-- C6 counterexample: for the identity with empty networkID, peerID and base
name and no transform, GetVMName succeeds yet returns the empty string, so the
claimed non-emptiness (grammar match with at least one character) fails. -/
theorem c6_counterexample_empty_identity :
    ¬ ((GetVMName ⟨"", "", ""⟩ none).2 = none →
        (GetVMName ⟨"", "", ""⟩ none).1 ≠ "") := by
  decide

/-- C6 (amended): for every identity and every non-failing transform, the name
GetVMName returns is the sanitizer applied to the intermediate name: every
character of the output lies in the alphabet of `vmRegExp`, each out-of-alphabet
character of the intermediate name is replaced one-for-one with a dash, and the
output is non-empty whenever the intermediate name is non-empty (the empty
identity yields the empty string); the identity with base name "my cc!" and no
identifiers resolves to "my-cc-". -/
theorem c6_sanitized_output (ccid : CCID)
    (format : Option (String → String × Option GoError))
    (h : (GetVMName ccid format).2 = none) :
    (GetVMName ccid format).1 = vmRegExpReplaceAll (appliedName ccid format) ∧
    (∀ ch ∈ (GetVMName ccid format).1.data, isVMChar ch = true) ∧
    (GetVMName ccid format).1.data = (appliedName ccid format).data.map sanitizeChar ∧
    (appliedName ccid format ≠ "" → (GetVMName ccid format).1 ≠ "") ∧
    GetVMName ⟨"", "", "my cc!"⟩ none = ("my-cc-", none) := by
  have key : (GetVMName ccid format).1 = vmRegExpReplaceAll (appliedName ccid format) := by
    match format with
    | none => rfl
    | some f =>
      rcases hf : f (joinedName ccid) with ⟨s, o⟩
      match o with
      | some e =>
        exfalso
        rw [GetVMName] at h
        rw [hf] at h
        simp at h
      | none =>
        rw [GetVMName, hf, appliedName, hf]
  refine ⟨key, ?_, ?_, ?_, by decide⟩
  · rw [key]
    exact isVMChar_of_mem_vmRegExpReplaceAll _
  · rw [key, vmRegExpReplaceAll_data]
  · intro hne
    rw [key]
    exact vmRegExpReplaceAll_ne_empty _ hne

/-- Witness for C6 (amended) at the identity with base name "my cc!" and no
transform: the output alphabet check and the concrete example. -/
theorem c6_sanitized_output_witness :
    (∀ ch ∈ (GetVMName ⟨"", "", "my cc!"⟩ none).1.data, isVMChar ch = true) ∧
    (GetVMName ⟨"", "", "my cc!"⟩ none).1 ≠ "" :=
  ⟨(c6_sanitized_output ⟨"", "", "my cc!"⟩ none rfl).2.1,
   (c6_sanitized_output ⟨"", "", "my cc!"⟩ none rfl).2.2.2.1 (by decide)⟩

/-- C7: the sanitization step is idempotent (sanitizing twice equals sanitizing
once) and resolving an identity whose name is already in the output alphabet
(with no identifiers and no transform) leaves the name unchanged. -/
theorem c7_sanitizer_idempotent (s : String) (ccid : CCID)
    (h1 : ccid.networkID = "") (h2 : ccid.peerID = "")
    (h3 : ∀ ch ∈ ccid.name.data, isVMChar ch = true) :
    vmRegExpReplaceAll (vmRegExpReplaceAll s) = vmRegExpReplaceAll s ∧
    GetVMName ccid none = (ccid.name, none) := by
  constructor
  · apply String.ext
    rw [vmRegExpReplaceAll_data, vmRegExpReplaceAll_data, List.map_map]
    exact List.map_congr_left fun a _ => sanitizeChar_idem a
  · rw [GetVMName_none, joinedName_base_only ccid h1 h2,
      vmRegExpReplaceAll_eq_self ccid.name h3]

/-- Witness for C7 at the string "a b" and the identity with base name "abc". -/
theorem c7_sanitizer_idempotent_witness :
    vmRegExpReplaceAll (vmRegExpReplaceAll "a b") = vmRegExpReplaceAll "a b" ∧
    GetVMName ⟨"", "", "abc"⟩ none = ("abc", none) :=
  c7_sanitizer_idempotent "a b" ⟨"", "", "abc"⟩ rfl rfl (by decide)

/-- C1 evaluation at the failing input: with `peer.kubernetes.namespace` set to
"ns1", the first Start succeeds, but a second Start for the same identity
returns the orchestrator's already-exists error: the pre-delete was issued
against the "default" namespace (hardcoded in `stopInternal`) while the create
targeted "ns1", so the deployment left by the first Start does make the second
Start fail.  With no namespace configured the two namespaces coincide and the
second Start succeeds, as the claim describes. -/
theorem c1_second_start_fails_with_configured_namespace :
    (Start ⟨true, "ns1", "rt"⟩ none [] ⟨"", "", "mycc"⟩ [] []).2.2 = none ∧
    (Start ⟨true, "ns1", "rt"⟩ none
        (Start ⟨true, "ns1", "rt"⟩ none [] ⟨"", "", "mycc"⟩ [] []).1
        ⟨"", "", "mycc"⟩ [] []).2.2 = some (alreadyExistsErr "mycc") ∧
    (Start ⟨true, "ns1", "rt"⟩ none
        (Start ⟨true, "ns1", "rt"⟩ none [] ⟨"", "", "mycc"⟩ [] []).1
        ⟨"", "", "mycc"⟩ [] []).2.1 =
      [APICall.deleteCall NamespaceDefault "mycc" DeletionPropagation.Foreground,
       APICall.createCall "ns1" "mycc"] ∧
    (Start ⟨false, "", "rt"⟩ none
        (Start ⟨false, "", "rt"⟩ none [] ⟨"", "", "mycc"⟩ [] []).1
        ⟨"", "", "mycc"⟩ [] []).2.2 = none := by
  decide

/-- C2 evaluation at the failing input: with `peer.kubernetes.namespace` set to
"ns1", Start issues its best-effort pre-delete against the "default" namespace
while the subsequent create targets "ns1" — the two namespaces differ, contrary
to the claim that the pre-delete targets the same namespace the create uses. -/
theorem c2_predelete_namespace_mismatch :
    (Start ⟨true, "ns1", "rt"⟩ none [] ⟨"", "", "mycc"⟩ [] []).2.1 =
      [APICall.deleteCall NamespaceDefault "mycc" DeletionPropagation.Foreground,
       APICall.createCall "ns1" "mycc"] ∧
    NamespaceDefault ≠ "ns1" := by
  decide

/-- C3: Stop resolves the name with a nil transform, replaces every colon with
an underscore, issues a single delete in the default namespace with the
foreground-cascade propagation policy, and returns exactly the orchestrator's
delete result (state and error); on a never-started identity the result is the
orchestrator's not-found error. -/
theorem c3_stop_propagates_delete_result (c : Cluster) (ccid : CCID)
    (timeout : Nat) (dontkill : Bool) (dontremove : Bool) :
    Stop none c ccid timeout dontkill dontremove =
      ((deleteDeployment c NamespaceDefault
          (replaceColonUnderscore (GetVMName ccid none).1)
          DeletionPropagation.Foreground).1,
       [APICall.deleteCall NamespaceDefault
          (replaceColonUnderscore (GetVMName ccid none).1)
          DeletionPropagation.Foreground],
       (deleteDeployment c NamespaceDefault
          (replaceColonUnderscore (GetVMName ccid none).1)
          DeletionPropagation.Foreground).2) ∧
    ((NamespaceDefault, replaceColonUnderscore (GetVMName ccid none).1) ∉ c →
      (Stop none c ccid timeout dontkill dontremove).2.2 =
        some (notFoundErr (replaceColonUnderscore (GetVMName ccid none).1))) := by
  have hstop : Stop none c ccid timeout dontkill dontremove =
      ((deleteDeployment c NamespaceDefault
          (replaceColonUnderscore (GetVMName ccid none).1)
          DeletionPropagation.Foreground).1,
       [APICall.deleteCall NamespaceDefault
          (replaceColonUnderscore (GetVMName ccid none).1)
          DeletionPropagation.Foreground],
       (deleteDeployment c NamespaceDefault
          (replaceColonUnderscore (GetVMName ccid none).1)
          DeletionPropagation.Foreground).2) := rfl
  refine ⟨hstop, fun h => ?_⟩
  rw [hstop]
  simp [deleteDeployment, h]

/-- Witness for C3: stopping a never-started identity on an empty cluster
returns the orchestrator's not-found error. -/
theorem c3_stop_propagates_delete_result_witness :
    (Stop none [] ⟨"", "", "cc"⟩ 0 false false).2.2 =
      some (notFoundErr (replaceColonUnderscore (GetVMName ⟨"", "", "cc"⟩ none).1)) :=
  (c3_stop_propagates_delete_result [] ⟨"", "", "cc"⟩ 0 false false).2 (by decide)

/-- C8: Deploy and Destroy return success for every input, issue no remote
call, and leave the cluster state unchanged. -/
theorem c8_deploy_destroy_noop (c : Cluster) (ccid : CCID)
    (args : List String) (env : List String) (force : Bool) (noprune : Bool) :
    Deploy c ccid args env = (c, [], none) ∧
    Destroy c ccid force noprune = (c, [], none) :=
  ⟨rfl, rfl⟩

/-- C9: a name resolved with a nil transform contains no colon, so Stop's
colon-to-underscore normalization is the identity on it, and Stop issues its
delete for exactly the string Start uses as the deployment name (the create
call's name). -/
theorem c9_resolved_name_colon_free (c : Cluster) (ccid : CCID)
    (timeout : Nat) (dontkill : Bool) (dontremove : Bool)
    (cfg : Config) (c2 : Cluster) (args : List String) (env : List String) :
    (∀ ch ∈ (GetVMName ccid none).1.data, ch ≠ ':') ∧
    replaceColonUnderscore (GetVMName ccid none).1 = (GetVMName ccid none).1 ∧
    (Stop none c ccid timeout dontkill dontremove).2.1 =
      [APICall.deleteCall NamespaceDefault (GetVMName ccid none).1
        DeletionPropagation.Foreground] ∧
    (Start cfg none c2 ccid args env).2.1 =
      [APICall.deleteCall NamespaceDefault (GetVMName ccid none).1
        DeletionPropagation.Foreground,
       APICall.createCall
        (if cfg.namespaceIsSet then cfg.namespaceValue else NamespaceDefault)
        (GetVMName ccid none).1] := by
  have hno : ∀ ch ∈ (GetVMName ccid none).1.data, ch ≠ ':' := by
    rw [GetVMName_none]
    exact no_colon_in_vmRegExpReplaceAll _
  have hfix := replaceColonUnderscore_eq_self _ hno
  refine ⟨hno, hfix, ?_, rfl⟩
  have hstop : (Stop none c ccid timeout dontkill dontremove).2.1 =
      [APICall.deleteCall NamespaceDefault
        (replaceColonUnderscore (GetVMName ccid none).1)
        DeletionPropagation.Foreground] := rfl
  rw [hstop, hfix]

/-- Witness for C9 at the identity (net, peer, cc). -/
theorem c9_resolved_name_colon_free_witness :
    replaceColonUnderscore (GetVMName ⟨"net", "peer", "cc"⟩ none).1 =
      (GetVMName ⟨"net", "peer", "cc"⟩ none).1 :=
  (c9_resolved_name_colon_free [] ⟨"net", "peer", "cc"⟩ 0 false false
    ⟨false, "", ""⟩ [] [] []).2.1

/-- C10: GetVMName errors exactly when a supplied transform errors (a nil
transform always succeeds, and the transform's error is returned unchanged);
with a failed client construction Start and Stop return that client error, and
with a working client their returned error is exactly the remote create or
delete call's result — name resolution never contributes an error. -/
theorem c10_errors_only_from_client_or_remote (ccid : CCID)
    (f : String → String × Option GoError) (e : GoError) (cfg : Config)
    (c : Cluster) (args : List String) (env : List String)
    (timeout : Nat) (dontkill : Bool) (dontremove : Bool) :
    (GetVMName ccid none).2 = none ∧
    ((GetVMName ccid (some f)).2 = none ↔ (f (joinedName ccid)).2 = none) ∧
    ((f (joinedName ccid)).2 = some e → (GetVMName ccid (some f)).2 = some e) ∧
    (Start cfg (some e) c ccid args env).2.2 = some e ∧
    (Stop (some e) c ccid timeout dontkill dontremove).2.2 = some e ∧
    (Start cfg none c ccid args env).2.2 =
      (createDeployment (stopInternal c (GetVMName ccid none).1 0 false false).1
        (if cfg.namespaceIsSet then cfg.namespaceValue else NamespaceDefault)
        (GetVMName ccid none).1).2 ∧
    (Stop none c ccid timeout dontkill dontremove).2.2 =
      (deleteDeployment c NamespaceDefault
        (replaceColonUnderscore (GetVMName ccid none).1)
        DeletionPropagation.Foreground).2 := by
  refine ⟨rfl, ?_, ?_, rfl, rfl, rfl, rfl⟩
  · rcases hf : f (joinedName ccid) with ⟨s, o⟩
    cases o <;> simp [GetVMName, hf]
  · intro hsome
    rcases hf : f (joinedName ccid) with ⟨s, o⟩
    rw [hf] at hsome
    cases o
    · simp at hsome
    · simp at hsome
      simp [GetVMName, hf, hsome]

/-- Witness for C10: a nil transform never fails, and a failing transform's
error surfaces; concrete client and remote errors surface from Start and Stop. -/
theorem c10_errors_only_from_client_or_remote_witness :
    (GetVMName ⟨"", "", "cc"⟩ none).2 = none ∧
    (GetVMName ⟨"", "", "cc"⟩ (some failingBang)).2 = some ⟨"fmt failed"⟩ ∧
    (Start ⟨false, "", ""⟩ (some ⟨"no client"⟩) [] ⟨"", "", "cc"⟩ [] []).2.2 =
      some ⟨"no client"⟩ :=
  ⟨(c10_errors_only_from_client_or_remote ⟨"", "", "cc"⟩ failingBang ⟨"fmt failed"⟩
      ⟨false, "", ""⟩ [] [] [] 0 false false).1,
   (c10_errors_only_from_client_or_remote ⟨"", "", "cc"⟩ failingBang ⟨"fmt failed"⟩
      ⟨false, "", ""⟩ [] [] [] 0 false false).2.2.1 (by decide),
   (c10_errors_only_from_client_or_remote ⟨"", "", "cc"⟩ failingBang ⟨"no client"⟩
      ⟨false, "", ""⟩ [] [] [] 0 false false).2.2.2.1⟩

end KubernetesController
